import Mathlib

/-!
Verification development for phono3py cui load.py, the convenience
loader that assembles a Phono3py instance from parameters and input
files.  The file under study is pure orchestration over external
collaborators (cell resolution helper, file readers, physical units
table, the Phono3py object), so the embedding models those
collaborators as an explicit environment (World) of abstract readers
and an existence predicate on file names, and translates the two
functions of the file, load and the private helper that sets force
constants, into pure Lean functions over that environment.
-/

/-- Abstract crystal cell value (PhonopyAtoms); the loader never inspects it. -/
structure Cell where
  id : Nat
  deriving DecidableEq, Repr

/-- Abstract non-analytical-term correction parameter set. -/
structure NacParams where
  id : Nat
  deriving DecidableEq, Repr

/-- Abstract third-order force-constant array as returned by a reader. -/
structure FC3Array where
  id : Nat
  deriving DecidableEq, Repr

/-- Abstract second-order force-constant array as returned by a reader. -/
structure FC2Array where
  id : Nat
  deriving DecidableEq, Repr

/-- Abstract unit-conversion factor value (a float in the source). -/
structure Factor where
  id : Nat
  deriving DecidableEq, Repr

/-- Abstract reciprocal mesh value (shape (3,) integer array in the source). -/
structure Mesh where
  id : Nat
  deriving DecidableEq, Repr

/-- Abstract p2s map of the primitive cell of a constructed Phono3py object. -/
structure P2sMap where
  id : Nat
  deriving DecidableEq, Repr

/-- Abstract displacement dataset (the loader always passes None for it). -/
structure Dataset where
  id : Nat
  deriving DecidableEq, Repr

/-- Integer 3x3 matrix, the resolved form of a supercell matrix. -/
def Mat3 : Type := Fin 3 → Fin 3 → Int

instance : DecidableEq Mat3 :=
  inferInstanceAs (DecidableEq (Fin 3 → Fin 3 → Int))

/-- The 3x3 identity matrix, np.eye(3, dtype=intc) in the source. -/
def eye3 : Mat3 := fun i j => if i = j then 1 else 0

/-- Array-like supercell matrix argument: shape (3,) meaning a diagonal
matrix, or a full 3x3 matrix, per the load docstring. -/
inductive MatLike where
  | diag (d : Fin 3 → Int)
  | full (m : Mat3)

/-- Primitive-matrix argument: the string auto, one of the centring
letters F, I, A, C, R, or an explicit 3x3 matrix. -/
inductive PrimitiveMatrixArg where
  | auto
  | centring (c : Char)
  | mat (m : Mat3)

/-- Resolved primitive matrix handed to the Phono3py constructor: absent,
the string auto, a centring letter, or an explicit matrix. -/
inductive ResolvedPMat where
  | nonePM
  | auto
  | centring (c : Char)
  | mat (m : Mat3)

/-- Physical units record returned by get_default_physical_units: the
keywords used by the loader are factor and nac_factor (distance_to_A is
also present in the table). -/
structure PhysicalUnits where
  factor : Factor
  nac_factor : Factor
  distance_to_A : Factor
  deriving DecidableEq, Repr

/-- Parsed content of a phono3py.yaml-like file, the fields of the
Phono3pyYaml object that load reads after calling read. -/
structure Phono3pyYamlData where
  unitcell : Cell
  supercell_matrix : Option Mat3
  phonon_supercell_matrix : Option Mat3
  primitive_matrix : Option Mat3
  nac_params : Option NacParams

/-- The external environment: filesystem existence, file readers, the
physical units table, and the primitive-cell determination performed by
the external Phono3py constructor.  Each field models one external
collaborator called by the loader. -/
structure World where
  fileExists : String → Bool
  readFc3 : String → P2sMap → FC3Array
  readFc2 : String → P2sMap → FC2Array
  readYaml : String → Phono3pyYamlData
  readCellFile : String → Option Cell
  defaultCellFilename : Option String → String
  physicalUnits : Option String → PhysicalUnits
  readBorn : String → Factor → NacParams
  p2sOf : Cell → Mat3 → ResolvedPMat → P2sMap

/-- Error raised by the loader or by the cell resolution helper; every
error on these paths is a Python RuntimeError carrying a message. -/
inductive LoadError where
  | runtimeError (msg : String)
  deriving DecidableEq, Repr

/-- Arguments of load, one field per keyword parameter of the source
function, with the same defaults. -/
structure LoadArgs where
  phono3py_yaml : Option String := none
  supercell_matrix : Option MatLike := none
  primitive_matrix : Option PrimitiveMatrixArg := none
  phonon_supercell_matrix : Option MatLike := none
  mesh : Option Mesh := none
  is_nac : Bool := true
  calculator : Option String := none
  unitcell : Option Cell := none
  supercell : Option Cell := none
  nac_params : Option NacParams := none
  unitcell_filename : Option String := none
  supercell_filename : Option String := none
  born_filename : Option String := none
  forces_fc3_filename : Option String := none
  forces_fc2_filename : Option String := none
  fc3_filename : Option String := none
  fc2_filename : Option String := none
  fc_calculator : Option String := none
  factor : Option Factor := none
  frequency_scale_factor : Option Factor := none
  is_symmetry : Bool := true
  is_mesh_symmetry : Bool := true
  symprec : Nat := 0
  log_level : Nat := 0

/-- Modelled from the spec: load_helper.get_supercell_matrix normalises
an array-like supercell matrix, a shape (3,) value being considered a
diagonal matrix (load docstring of supercell_matrix). -/
def get_supercell_matrix : MatLike → Mat3
  | .diag d => fun i j => if i = j then d i else 0
  | .full m => m

/-- Resolve an optional supercell-matrix argument: the docstring default
is the unit matrix. -/
def resolveSmat : Option MatLike → Mat3
  | none => eye3
  | some ml => get_supercell_matrix ml

/-- Resolve an optional primitive-matrix argument as passed through by
the cell resolution helper. -/
def resolvePmat : Option PrimitiveMatrixArg → ResolvedPMat
  | none => .nonePM
  | some .auto => .auto
  | some (.centring c) => .centring c
  | some (.mat m) => .mat m

/-- Resolve the primitive-matrix argument in the supercell branches,
where the docstring says its default value is set to auto but can be
overwritten. -/
def resolvePmatSupercell : Option PrimitiveMatrixArg → ResolvedPMat
  | none => .auto
  | some p => resolvePmat (some p)

/-- Modelled from the spec: phonopy load_helper.get_cell_settings, the
external cell resolution helper.  Per the load docstring the cell
priority is unitcell_filename, then supercell_filename, then unitcell,
then supercell; with a supercell source the supercell matrix is ignored
(identity) and the primitive matrix defaults to auto; when neither a
unitcell nor a unitcell_filename is given and no supercell source is
present, the default cell file name of the calculator is looked for in
the current directory; an unreadable cell source raises RuntimeError. -/
def get_cell_settings (w : World) (smat_arg : Option MatLike)
    (pmat_arg : Option PrimitiveMatrixArg) (unitcell supercell : Option Cell)
    (unitcell_filename supercell_filename : Option String)
    (calculator : Option String) :
    Except LoadError (Cell × Mat3 × ResolvedPMat) :=
  match unitcell_filename with
  | some fname =>
    match w.readCellFile fname with
    | some c => .ok (c, resolveSmat smat_arg, resolvePmat pmat_arg)
    | none => .error (.runtimeError "cell file could not be read")
  | none =>
    match supercell_filename with
    | some fname =>
      match w.readCellFile fname with
      | some c => .ok (c, eye3, resolvePmatSupercell pmat_arg)
      | none => .error (.runtimeError "cell file could not be read")
    | none =>
      match unitcell with
      | some c => .ok (c, resolveSmat smat_arg, resolvePmat pmat_arg)
      | none =>
        match supercell with
        | some c => .ok (c, eye3, resolvePmatSupercell pmat_arg)
        | none =>
          match w.readCellFile (w.defaultCellFilename calculator) with
          | some c => .ok (c, resolveSmat smat_arg, resolvePmat pmat_arg)
          | none => .error (.runtimeError "cell could not be found")

/-- Modelled from the spec: phonopy load_helper.get_nac_params.  The
load docstring states the NAC priority nac_params, then born_filename,
then is_nac; with is_nac the default BORN file is looked for in the
current directory, and with is_nac False NAC is turned off.  The real
helper also receives the primitive cell, used only to complete missing
entries of the parameter dictionary, which the abstract reader absorbs. -/
def get_nac_params (w : World) (nac_params : Option NacParams)
    (born_filename : Option String) (is_nac : Bool) (nac_factor : Factor) :
    Option NacParams :=
  match nac_params with
  | some n => some n
  | none =>
    match born_filename with
    | some fname => some (w.readBorn fname nac_factor)
    | none =>
      if is_nac && w.fileExists "BORN" then
        some (w.readBorn "BORN" nac_factor)
      else
        none

/-- Arguments handed to the external Phono3py constructor, one field per
keyword of the constructor call in load. -/
structure Phono3pyCtorArgs where
  cell : Cell
  supercell_matrix : Mat3
  primitive_matrix : ResolvedPMat
  phonon_supercell_matrix : Option Mat3
  mesh : Option Mesh
  frequency_factor_to_THz : Factor
  symprec : Nat
  is_symmetry : Bool
  is_mesh_symmetry : Bool
  calculator : Option String
  log_level : Nat

/-- Settings recorded by set_phph_interaction. -/
structure PhphSettings where
  nac_params : Option NacParams
  frequency_scale_factor : Option Factor
  deriving DecidableEq, Repr

/-- The external Phono3py object as the loader observes it: the
constructor arguments, the p2s map of its primitive cell, and the three
pieces of state the loader may set afterwards (fc3, fc2, and the
phonon-phonon interaction settings). -/
structure Phono3py where
  ctorArgs : Phono3pyCtorArgs
  primitive_p2s_map : P2sMap
  fc3 : Option FC3Array
  fc2 : Option FC2Array
  phph : Option PhphSettings

/-- The external Phono3py constructor: records its arguments, determines
the primitive cell p2s map, and leaves fc3, fc2 and the phonon-phonon
interaction unset. -/
def phono3pyConstruct (w : World) (args : Phono3pyCtorArgs) : Phono3py :=
  { ctorArgs := args
    primitive_p2s_map := w.p2sOf args.cell args.supercell_matrix args.primitive_matrix
    fc3 := none
    fc2 := none
    phph := none }

/-- Setter set_phph_interaction of the external Phono3py object. -/
def set_phph_interaction (p : Phono3py) (nac : Option NacParams)
    (fsf : Option Factor) : Phono3py :=
  { p with phph := some { nac_params := nac, frequency_scale_factor := fsf } }

/-- Translation of the private helper _set_force_constants of load.py:
for fc3, an explicit fc3_filename is read and assigned; otherwise a given
forces_fc3_filename selects the raw-forces branch, whose body is a pass
statement; otherwise an existing fc3.hdf5 is read and assigned; otherwise
the pair FORCES_FC3 and disp_fc3.yaml selects a branch whose body is also
a pass statement; and the same cascade for fc2 with fc2_filename,
forces_fc2_filename, fc2.hdf5, and FORCES_FC2 with disp_fc2.yaml. -/
def _set_force_constants (w : World) (ph3py : Phono3py)
    (dataset : Option Dataset)
    (fc3_filename fc2_filename : Option String)
    (forces_fc3_filename forces_fc2_filename : Option String)
    (fc_calculator : Option String) : Phono3py :=
  let p2s_map := ph3py.primitive_p2s_map
  let ph3py2 :=
    match fc3_filename with
    | some fname => { ph3py with fc3 := some (w.readFc3 fname p2s_map) }
    | none =>
      match forces_fc3_filename with
      | some _ => ph3py
      | none =>
        if w.fileExists "fc3.hdf5" then
          { ph3py with fc3 := some (w.readFc3 "fc3.hdf5" p2s_map) }
        else if w.fileExists "FORCES_FC3" && w.fileExists "disp_fc3.yaml" then
          ph3py
        else
          ph3py
  match fc2_filename with
  | some fname => { ph3py2 with fc2 := some (w.readFc2 fname p2s_map) }
  | none =>
    match forces_fc2_filename with
    | some _ => ph3py2
    | none =>
      if w.fileExists "fc2.hdf5" then
        { ph3py2 with fc2 := some (w.readFc2 "fc2.hdf5" p2s_map) }
      else if w.fileExists "FORCES_FC2" && w.fileExists "disp_fc2.yaml" then
        ph3py2
      else
        ph3py2

/-- Outcome of the first stage of load: the resolved cell, supercell
matrix, primitive matrix, phonon supercell matrix, and the NAC
parameters before the NAC helper runs; cellHelperInvoked records whether
the external cell resolution helper get_cell_settings was called. -/
structure Resolved where
  cell : Cell
  smat : Mat3
  pmat : ResolvedPMat
  ph_smat : Option Mat3
  nac0 : Option NacParams
  cellHelperInvoked : Bool

/-- First stage of load, translated from the source: with no
phono3py_yaml argument, delegate cell resolution to get_cell_settings,
then check that a phonon_supercell_matrix is only used together with
unitcell or unitcell_filename, raising RuntimeError otherwise; with a
phono3py_yaml argument, parse the file and take the unit cell, supercell
matrix (identity when the file has none), primitive matrix (the string
auto winning over the file value), phonon supercell matrix, and, when
is_nac, the NAC parameters from the parsed file. -/
def resolveInputs (w : World) (a : LoadArgs) : Except LoadError Resolved :=
  match a.phono3py_yaml with
  | none =>
    match get_cell_settings w a.supercell_matrix a.primitive_matrix
        a.unitcell a.supercell a.unitcell_filename a.supercell_filename
        a.calculator with
    | .error e => .error e
    | .ok (cell, smat, pmat) =>
      match a.phonon_supercell_matrix with
      | some psm =>
        if a.unitcell.isNone && a.unitcell_filename.isNone then
          .error (.runtimeError
            "phonon_supercell_matrix can be used only when unitcell or unitcell_filename is given.")
        else
          .ok { cell := cell, smat := smat, pmat := pmat
                ph_smat := some (get_supercell_matrix psm)
                nac0 := a.nac_params, cellHelperInvoked := true }
      | none =>
        .ok { cell := cell, smat := smat, pmat := pmat, ph_smat := none
              nac0 := a.nac_params, cellHelperInvoked := true }
  | some fname =>
    let y := w.readYaml fname
    let smat :=
      match y.supercell_matrix with
      | some m => m
      | none => eye3
    let pmat :=
      match a.primitive_matrix with
      | some .auto => ResolvedPMat.auto
      | _ =>
        match y.primitive_matrix with
        | some m => ResolvedPMat.mat m
        | none => ResolvedPMat.nonePM
    let nac0 := if a.is_nac then y.nac_params else none
    .ok { cell := y.unitcell, smat := smat, pmat := pmat
          ph_smat := y.phonon_supercell_matrix
          nac0 := nac0, cellHelperInvoked := false }

/-- The constructor arguments load assembles: the resolved cell and
matrices, the mesh, and the frequency factor, which is the factor
argument when given and the factor entry of the physical units table of
the calculator otherwise. -/
def mkCtorArgs (w : World) (a : LoadArgs) (r : Resolved) : Phono3pyCtorArgs :=
  { cell := r.cell
    supercell_matrix := r.smat
    primitive_matrix := r.pmat
    phonon_supercell_matrix := r.ph_smat
    mesh := a.mesh
    frequency_factor_to_THz := a.factor.getD (w.physicalUnits a.calculator).factor
    symprec := a.symprec
    is_symmetry := a.is_symmetry
    is_mesh_symmetry := a.is_mesh_symmetry
    calculator := a.calculator
    log_level := a.log_level }

/-- Second stage of load, translated from the source: construct the
Phono3py object, resolve the NAC parameters through get_nac_params with
the nac_factor of the units table, set force constants through the
private helper with dataset None, and, when a mesh is given, call
set_phph_interaction with the resolved NAC parameters and the
frequency_scale_factor argument. -/
def loadBody (w : World) (a : LoadArgs) (r : Resolved) : Phono3py :=
  let units := w.physicalUnits a.calculator
  let ph3py := phono3pyConstruct w (mkCtorArgs w a r)
  let nacF := get_nac_params w r.nac0 a.born_filename a.is_nac units.nac_factor
  let ph3py2 := _set_force_constants w ph3py none a.fc3_filename a.fc2_filename
    a.forces_fc3_filename a.forces_fc2_filename a.fc_calculator
  match a.mesh with
  | some _ => set_phph_interaction ph3py2 nacF a.frequency_scale_factor
  | none => ph3py2

/-- The load function of load.py: resolve the inputs, then build the
Phono3py object; a RuntimeError on the resolution stage propagates and
no Phono3py object is constructed. -/
def load (w : World) (a : LoadArgs) : Except LoadError Phono3py :=
  (resolveInputs w a).map (loadBody w a)

/-- Spec-side definition following the claim words: the cell determined
by the highest-priority non-None source among the four cell arguments,
in the order unitcell_filename, supercell_filename, unitcell, supercell. -/
def cell_priority_spec (w : World) (unitcell supercell : Option Cell)
    (unitcell_filename supercell_filename : Option String) : Option Cell :=
  match unitcell_filename with
  | some f => w.readCellFile f
  | none =>
    match supercell_filename with
    | some f => w.readCellFile f
    | none =>
      match unitcell with
      | some c => some c
      | none => supercell

/-- The primitive matrix taken from a parsed yaml file, as load passes
it to the constructor when the primitive_matrix argument is not auto. -/
def pmatOfYaml : Option Mat3 → ResolvedPMat
  | some m => .mat m
  | none => .nonePM

/-- Whether a load outcome is a raised RuntimeError (and hence carries
no constructed Phono3py object). -/
def isRuntimeErrorResult : Except LoadError Phono3py → Bool
  | .error (.runtimeError _) => true
  | .ok _ => false

/-- Yaml data fixture: a parsed file with no matrices and no NAC data. -/
def yaml0 : Phono3pyYamlData :=
  { unitcell := ⟨3⟩, supercell_matrix := none, phonon_supercell_matrix := none
    primitive_matrix := none, nac_params := none }

/-- Base environment fixture: no files on disk, fixed readers. -/
def w0 : World :=
  { fileExists := fun _ => false
    readFc3 := fun _ _ => ⟨0⟩
    readFc2 := fun _ _ => ⟨0⟩
    readYaml := fun _ => yaml0
    readCellFile := fun _ => none
    defaultCellFilename := fun _ => "POSCAR"
    physicalUnits := fun _ => { factor := ⟨100⟩, nac_factor := ⟨200⟩, distance_to_A := ⟨300⟩ }
    readBorn := fun _ _ => ⟨9⟩
    p2sOf := fun _ _ _ => ⟨5⟩ }

/-- Environment where only fc3.hdf5 exists on disk. -/
def w1 : World := { w0 with fileExists := fun s => s == "fc3.hdf5" }

/-- Environment where only the default forces and displacement pairs
FORCES_FC3 with disp_fc3.yaml and FORCES_FC2 with disp_fc2.yaml exist. -/
def w1b : World :=
  { w0 with fileExists := fun s =>
      s == "FORCES_FC3" || s == "disp_fc3.yaml"
        || s == "FORCES_FC2" || s == "disp_fc2.yaml" }

/-- Arguments selecting the raw-forces fc3 source. -/
def a1 : LoadArgs := { unitcell := some ⟨1⟩, forces_fc3_filename := some "FORCES_FC3" }

/-- Arguments with an in-memory unit cell and nothing else. -/
def a1b : LoadArgs := { unitcell := some ⟨1⟩ }

/-- Environment whose yaml files parse with NAC parameter set 2. -/
def w2 : World :=
  { w0 with readYaml := fun _ => { yaml0 with nac_params := some ⟨2⟩ } }

/-- Arguments giving both a yaml file and an explicit NAC argument. -/
def a2 : LoadArgs :=
  { phono3py_yaml := some "phono3py.yaml", nac_params := some ⟨1⟩, mesh := some ⟨1⟩ }

/-- Arguments with a cell, a mesh and an explicit NAC argument. -/
def a2b : LoadArgs := { unitcell := some ⟨1⟩, mesh := some ⟨2⟩, nac_params := some ⟨4⟩ }

/-- Environment whose yaml files parse with unit cell 7. -/
def w3 : World :=
  { w0 with readYaml := fun _ => { yaml0 with unitcell := ⟨7⟩ } }

/-- Arguments giving both a yaml file and an in-memory unit cell. -/
def a3 : LoadArgs := { phono3py_yaml := some "p.yaml", unitcell := some ⟨5⟩ }

/-- Environment whose yaml files parse with matrices and NAC data set. -/
def w4 : World :=
  { w0 with readYaml := fun _ =>
      { unitcell := ⟨3⟩, supercell_matrix := some eye3
        phonon_supercell_matrix := some eye3
        primitive_matrix := none, nac_params := some ⟨6⟩ } }

/-- Arguments giving only a yaml file. -/
def a4 : LoadArgs := { phono3py_yaml := some "p3.yaml" }

/-- Environment where only fc2.hdf5 exists on disk. -/
def w5 : World := { w0 with fileExists := fun s => s == "fc2.hdf5" }

/-- Constructor argument fixture. -/
def ca5 : Phono3pyCtorArgs :=
  { cell := ⟨1⟩, supercell_matrix := eye3, primitive_matrix := .nonePM
    phonon_supercell_matrix := none, mesh := none
    frequency_factor_to_THz := ⟨100⟩, symprec := 0
    is_symmetry := true, is_mesh_symmetry := true
    calculator := none, log_level := 0 }

/-- A freshly constructed Phono3py object fixture. -/
def p5 : Phono3py :=
  { ctorArgs := ca5, primitive_p2s_map := ⟨5⟩, fc3 := none, fc2 := none, phph := none }

/-- Arguments with only an in-memory unit cell, for the resolution fixture. -/
def a7 : LoadArgs := { unitcell := some ⟨1⟩ }

/-- The resolution outcome for a7 under w0. -/
def r7 : Resolved :=
  { cell := ⟨1⟩, smat := eye3, pmat := .nonePM, ph_smat := none
    nac0 := none, cellHelperInvoked := true }

/-- Arguments with a phonon supercell matrix but no unitcell source. -/
def a8 : LoadArgs :=
  { phonon_supercell_matrix := some (.full eye3), supercell := some ⟨4⟩ }

/-- Environment whose yaml files parse with a primitive matrix but no
supercell matrix. -/
def w9 : World :=
  { w0 with readYaml := fun _ => { yaml0 with primitive_matrix := some eye3 } }

/-- Arguments giving only a yaml file, primitive_matrix left at None. -/
def a9 : LoadArgs := { phono3py_yaml := some "p.yaml" }

/-- The force-constant helper never changes the constructor arguments. -/
theorem setfc_ctorArgs (w : World) (p : Phono3py) (d : Option Dataset)
    (f3 f2 ff3 ff2 fcc : Option String) :
    (_set_force_constants w p d f3 f2 ff3 ff2 fcc).ctorArgs = p.ctorArgs := by
  unfold _set_force_constants
  repeat' split
  all_goals rfl

/-- The force-constant helper never changes the primitive p2s map. -/
theorem setfc_p2s (w : World) (p : Phono3py) (d : Option Dataset)
    (f3 f2 ff3 ff2 fcc : Option String) :
    (_set_force_constants w p d f3 f2 ff3 ff2 fcc).primitive_p2s_map
      = p.primitive_p2s_map := by
  unfold _set_force_constants
  repeat' split
  all_goals rfl

/-- The force-constant helper never changes the interaction settings. -/
theorem setfc_phph (w : World) (p : Phono3py) (d : Option Dataset)
    (f3 f2 ff3 ff2 fcc : Option String) :
    (_set_force_constants w p d f3 f2 ff3 ff2 fcc).phph = p.phph := by
  unfold _set_force_constants
  repeat' split
  all_goals rfl

/-- The constructor arguments of the object load builds are mkCtorArgs. -/
theorem loadBody_ctorArgs (w : World) (a : LoadArgs) (r : Resolved) :
    (loadBody w a r).ctorArgs = mkCtorArgs w a r := by
  unfold loadBody
  split
  · rw [set_phph_interaction]
    rw [setfc_ctorArgs]
    rfl
  · rw [setfc_ctorArgs]
    rfl

/-- The interaction settings of the object load builds: set exactly when
a mesh is given, to the resolved NAC parameters and the scale factor. -/
theorem loadBody_phph (w : World) (a : LoadArgs) (r : Resolved) :
    (loadBody w a r).phph =
      match a.mesh with
      | some _ => some
          { nac_params := get_nac_params w r.nac0 a.born_filename a.is_nac
              (w.physicalUnits a.calculator).nac_factor
            frequency_scale_factor := a.frequency_scale_factor }
      | none => none := by
  unfold loadBody
  split
  · rw [set_phph_interaction]
  · rw [setfc_phph]
    rfl

/-- With no yaml argument, a successful resolution carries the
nac_params argument through unchanged and records that the external
cell resolution helper was invoked. -/
theorem resolveInputs_yaml_none_fields (w : World) (a : LoadArgs)
    (h1 : a.phono3py_yaml = none) (r : Resolved)
    (hr : resolveInputs w a = Except.ok r) :
    r.nac0 = a.nac_params ∧ r.cellHelperInvoked = true := by
  unfold resolveInputs at hr
  rw [h1] at hr
  repeat' split at hr
  all_goals simp_all
  all_goals (cases hr; exact ⟨rfl, rfl⟩)

/-- The cell returned by the modelled helper agrees with the spec-side
priority among the four cell sources whenever the latter is defined. -/
theorem get_cell_settings_cell (w : World) (smat : Option MatLike)
    (pmat : Option PrimitiveMatrixArg) (uc sc : Option Cell)
    (ucf scf : Option String) (calcArg : Option String) (c : Cell)
    (res : Cell × Mat3 × ResolvedPMat)
    (hs : cell_priority_spec w uc sc ucf scf = some c)
    (h : get_cell_settings w smat pmat uc sc ucf scf calcArg = Except.ok res) :
    res.1 = c := by
  unfold get_cell_settings at h
  repeat' split at h
  all_goals simp_all [cell_priority_spec]
  all_goals (subst h; rfl)

/-- With no yaml argument, a successful resolution returns the cell
given by the spec-side priority whenever the latter is defined. -/
theorem resolveInputs_yaml_none_cell (w : World) (a : LoadArgs)
    (h1 : a.phono3py_yaml = none) (c : Cell)
    (hs : cell_priority_spec w a.unitcell a.supercell
      a.unitcell_filename a.supercell_filename = some c)
    (r : Resolved) (hr : resolveInputs w a = Except.ok r) :
    r.cell = c := by
  unfold resolveInputs at hr
  rw [h1] at hr
  cases hgc : get_cell_settings w a.supercell_matrix a.primitive_matrix
      a.unitcell a.supercell a.unitcell_filename a.supercell_filename
      a.calculator with
  | error e => rw [hgc] at hr; exact absurd hr (by simp)
  | ok res =>
    obtain ⟨cc, ss, pp⟩ := res
    have hc : cc = c :=
      get_cell_settings_cell w a.supercell_matrix a.primitive_matrix
        a.unitcell a.supercell a.unitcell_filename a.supercell_filename
        a.calculator c (cc, ss, pp) hs hgc
    rw [hgc] at hr
    subst hc
    repeat' split at hr
    all_goals simp_all
    all_goals (cases hr; rfl)

/-- With a yaml argument, resolution parses the file and never fails;
this spells out the outcome record. -/
theorem resolveInputs_yaml (w : World) (a : LoadArgs) (fname : String)
    (h1 : a.phono3py_yaml = some fname) :
    resolveInputs w a = Except.ok
      { cell := (w.readYaml fname).unitcell
        smat :=
          match (w.readYaml fname).supercell_matrix with
          | some m => m
          | none => eye3
        pmat :=
          match a.primitive_matrix with
          | some .auto => ResolvedPMat.auto
          | _ => pmatOfYaml (w.readYaml fname).primitive_matrix
        ph_smat := (w.readYaml fname).phonon_supercell_matrix
        nac0 := if a.is_nac then (w.readYaml fname).nac_params else none
        cellHelperInvoked := false } := by
  unfold resolveInputs
  rw [h1]
  rcases a.primitive_matrix with _ | pm
  · rfl
  · cases pm <;> rfl

/-- C1: the claim says that whichever force-constant source is selected
supplies the corresponding force constants; in the code the two
raw-forces branches are pass statements.  At an input where the
forces_fc3_filename source is selected while fc3.hdf5 exists on disk,
and at an input where the FORCES_FC3 with disp_fc3.yaml pair (and the
FORCES_FC2 with disp_fc2.yaml pair) is selected, no force constants are
supplied at all: fc3 and fc2 of the returned object stay unset. -/
theorem forces_fc3_selected_supplies_no_fc3 :
    w1.fileExists "fc3.hdf5" = true ∧
    a1.forces_fc3_filename = some "FORCES_FC3" ∧
    (load w1 a1).map (fun p => p.fc3) = Except.ok none ∧
    w1b.fileExists "FORCES_FC3" = true ∧
    w1b.fileExists "disp_fc3.yaml" = true ∧
    w1b.fileExists "FORCES_FC2" = true ∧
    w1b.fileExists "disp_fc2.yaml" = true ∧
    (load w1b a1b).map (fun p => p.fc3) = Except.ok none ∧
    (load w1b a1b).map (fun p => p.fc2) = Except.ok none :=
  ⟨rfl, rfl, rfl, rfl, rfl, rfl, rfl, rfl, rfl⟩

/-- C5: whenever a force-constant file is read, from fc3_filename,
fc2_filename, or a default hdf5 file, the array the reader returns is
assigned unchanged to the corresponding attribute. -/
theorem fc_read_assigned_unchanged (w : World) (p : Phono3py)
    (d : Option Dataset) (f3 f2 ff3 ff2 fcc : Option String) :
    (∀ f, f3 = some f →
      (_set_force_constants w p d f3 f2 ff3 ff2 fcc).fc3
        = some (w.readFc3 f p.primitive_p2s_map)) ∧
    (f3 = none → ff3 = none → w.fileExists "fc3.hdf5" = true →
      (_set_force_constants w p d f3 f2 ff3 ff2 fcc).fc3
        = some (w.readFc3 "fc3.hdf5" p.primitive_p2s_map)) ∧
    (∀ f, f2 = some f →
      (_set_force_constants w p d f3 f2 ff3 ff2 fcc).fc2
        = some (w.readFc2 f p.primitive_p2s_map)) ∧
    (f2 = none → ff2 = none → w.fileExists "fc2.hdf5" = true →
      (_set_force_constants w p d f3 f2 ff3 ff2 fcc).fc2
        = some (w.readFc2 "fc2.hdf5" p.primitive_p2s_map)) := by
  refine ⟨?_, ?_, ?_, ?_⟩
  · intro f hf
    subst hf
    unfold _set_force_constants
    repeat' split
    all_goals simp_all
  · intro h3 hf3 hex
    subst h3
    subst hf3
    unfold _set_force_constants
    rw [hex]
    repeat' split
    all_goals simp_all
  · intro f hf
    subst hf
    unfold _set_force_constants
    repeat' split
    all_goals simp_all
  · intro h2 hf2 hex
    subst h2
    subst hf2
    unfold _set_force_constants
    rw [hex]
    repeat' split
    all_goals simp_all

/-- Witness for C5 at concrete inputs: an explicit fc3 filename and the
default fc2.hdf5 file. -/
theorem fc_read_assigned_unchanged_witness :
    (_set_force_constants w5 p5 none (some "myfc3.hdf5") none none none none).fc3
      = some (w5.readFc3 "myfc3.hdf5" p5.primitive_p2s_map) ∧
    (_set_force_constants w5 p5 none (some "myfc3.hdf5") none none none none).fc2
      = some (w5.readFc2 "fc2.hdf5" p5.primitive_p2s_map) :=
  ⟨(fc_read_assigned_unchanged w5 p5 none (some "myfc3.hdf5") none none none none).1
      "myfc3.hdf5" rfl,
   (fc_read_assigned_unchanged w5 p5 none (some "myfc3.hdf5") none none none none).2.2.2
      rfl rfl rfl⟩

/-- C6: the frequency unit-conversion factor passed to the constructor
is the factor argument when given and the factor entry of the physical
units table of the calculator otherwise. -/
theorem frequency_factor_resolution (w : World) (a : LoadArgs) :
    (load w a).map (fun p => p.ctorArgs.frequency_factor_to_THz)
      = (load w a).map
        (fun _ => a.factor.getD (w.physicalUnits a.calculator).factor) := by
  unfold load
  cases hr : resolveInputs w a with
  | error e => rfl
  | ok r => simp [Except.map, loadBody_ctorArgs, mkCtorArgs]

/-- C8: with no yaml argument, a phonon_supercell_matrix argument, and
neither unitcell nor unitcell_filename, load raises RuntimeError; since
the outcome is an error value, no Phono3py object is constructed on this
path. -/
theorem phonon_smat_requires_unitcell_error (w : World) (a : LoadArgs)
    (h1 : a.phono3py_yaml = none)
    (h2 : a.phonon_supercell_matrix ≠ none)
    (h3 : a.unitcell = none) (h4 : a.unitcell_filename = none) :
    isRuntimeErrorResult (load w a) = true := by
  obtain ⟨psm, hpsm⟩ := Option.ne_none_iff_exists'.mp h2
  unfold load resolveInputs
  rw [h1]
  cases hgc : get_cell_settings w a.supercell_matrix a.primitive_matrix
      a.unitcell a.supercell a.unitcell_filename a.supercell_filename
      a.calculator with
  | error e => cases e; rfl
  | ok res =>
    obtain ⟨c, s, pm⟩ := res
    rw [hpsm]
    simp [h3, h4, Except.map, isRuntimeErrorResult]

/-- Witness for C8: a supercell argument together with a phonon
supercell matrix and no unitcell source. -/
theorem phonon_smat_requires_unitcell_error_witness :
    a8.phono3py_yaml = none ∧
    a8.phonon_supercell_matrix ≠ none ∧
    a8.unitcell = none ∧
    a8.unitcell_filename = none ∧
    isRuntimeErrorResult (load w0 a8) = true :=
  ⟨rfl, fun h => Option.noConfusion h, rfl, rfl,
   phonon_smat_requires_unitcell_error w0 a8 rfl
     (fun h => Option.noConfusion h) rfl rfl⟩

/-- C10: the interaction settings of the returned object are present
exactly when a mesh is given, and with no mesh the resolved NAC
parameters and the frequency scale factor are not passed to the object
at all. -/
theorem phph_iff_mesh (w : World) (a : LoadArgs) :
    ((load w a).map (fun p => p.phph.isSome)
      = (load w a).map (fun _ => a.mesh.isSome)) ∧
    (a.mesh = none →
      (load w a).map (fun p => p.phph)
        = (load w a).map (fun _ => (none : Option PhphSettings))) := by
  constructor
  · unfold load
    cases hr : resolveInputs w a with
    | error e => rfl
    | ok r =>
      simp only [Except.map, loadBody_phph]
      cases a.mesh <;> rfl
  · intro hm
    unfold load
    cases hr : resolveInputs w a with
    | error e => rfl
    | ok r =>
      simp only [Except.map, loadBody_phph, hm]

/-- Witness for C10 at a concrete meshless input. -/
theorem phph_iff_mesh_witness :
    a7.mesh = none ∧
    (load w0 a7).map (fun p => p.phph)
      = (load w0 a7).map (fun _ => (none : Option PhphSettings)) :=
  ⟨rfl, (phph_iff_mesh w0 a7).2 rfl⟩

/-- C2 counterexample: at a call with a yaml file and an explicit
nac_params argument, the parameters passed onward are those parsed from
the yaml file, not the nac_params argument; the claim, which covers
every call, therefore fails on the yaml path. -/
theorem nac_params_arg_ignored_with_yaml_cex :
    a2.nac_params = some ⟨1⟩ ∧
    (load w2 a2).map (fun p => p.phph)
      = Except.ok (some { nac_params := some ⟨2⟩, frequency_scale_factor := none }) ∧
    NacParams.mk 2 ≠ NacParams.mk 1 :=
  ⟨rfl, rfl, by decide⟩

/-- C2 amended: with no yaml argument, the NAC parameters passed onward
follow the priority nac_params, then born_filename, then is_nac with the
default BORN file when it exists, NAC being off when is_nac is False;
the mesh hypothesis makes the passed-on parameters observable on the
returned object. -/
theorem nac_priority_resolution (w : World) (a : LoadArgs)
    (h1 : a.phono3py_yaml = none) (h2 : a.mesh.isSome = true) :
    (load w a).map (fun p => p.phph)
      = (load w a).map (fun _ => some
          { nac_params := get_nac_params w a.nac_params a.born_filename
              a.is_nac (w.physicalUnits a.calculator).nac_factor
            frequency_scale_factor := a.frequency_scale_factor }) := by
  unfold load
  cases hr : resolveInputs w a with
  | error e => rfl
  | ok r =>
    have hn : r.nac0 = a.nac_params :=
      (resolveInputs_yaml_none_fields w a h1 r hr).1
    obtain ⟨m, hm⟩ := Option.isSome_iff_exists.mp h2
    simp only [Except.map, loadBody_phph, hn, hm]

/-- Witness for the amended C2 at a concrete input with a mesh. -/
theorem nac_priority_resolution_witness :
    a2b.phono3py_yaml = none ∧
    a2b.mesh.isSome = true ∧
    (load w0 a2b).map (fun p => p.phph)
      = (load w0 a2b).map (fun _ => some
          { nac_params := get_nac_params w0 a2b.nac_params a2b.born_filename
              a2b.is_nac (w0.physicalUnits a2b.calculator).nac_factor
            frequency_scale_factor := a2b.frequency_scale_factor }) :=
  ⟨rfl, rfl, nac_priority_resolution w0 a2b rfl rfl⟩

/-- C3 counterexample: at a call with a yaml file and an in-memory
unitcell argument, the cell handed to the constructor comes from the
yaml file, the spec-side four-source priority picks the unitcell
argument instead, and the cell resolution helper is not invoked; the
claim, which covers every call, therefore fails on the yaml path. -/
theorem cell_helper_not_used_with_yaml_cex :
    cell_priority_spec w3 a3.unitcell a3.supercell
      a3.unitcell_filename a3.supercell_filename = some ⟨5⟩ ∧
    (load w3 a3).map (fun p => p.ctorArgs.cell) = Except.ok ⟨7⟩ ∧
    Cell.mk 7 ≠ Cell.mk 5 ∧
    (resolveInputs w3 a3).map (fun r => r.cellHelperInvoked) = Except.ok false :=
  ⟨rfl, rfl, by decide, rfl⟩

/-- C3 amended: with no yaml argument, the cell handed to the
constructor is resolved by delegating to the external helper, and it is
the one determined by the priority unitcell_filename, then
supercell_filename, then unitcell, then supercell whenever some of the
four sources applies. -/
theorem cell_priority_delegation (w : World) (a : LoadArgs) (c : Cell)
    (h1 : a.phono3py_yaml = none)
    (h2 : cell_priority_spec w a.unitcell a.supercell
      a.unitcell_filename a.supercell_filename = some c) :
    ((load w a).map (fun p => p.ctorArgs.cell)
      = (load w a).map (fun _ => c)) ∧
    ((resolveInputs w a).map (fun r => r.cellHelperInvoked)
      = (resolveInputs w a).map (fun _ => true)) := by
  constructor
  · unfold load
    cases hr : resolveInputs w a with
    | error e => rfl
    | ok r =>
      have hc : r.cell = c := resolveInputs_yaml_none_cell w a h1 c h2 r hr
      simp [Except.map, loadBody_ctorArgs, mkCtorArgs, hc]
  · cases hr : resolveInputs w a with
    | error e => rfl
    | ok r =>
      have hi : r.cellHelperInvoked = true :=
        (resolveInputs_yaml_none_fields w a h1 r hr).2
      simp [Except.map, hi]

/-- Witness for the amended C3 at a concrete input with an in-memory
unitcell. -/
theorem cell_priority_delegation_witness :
    a7.phono3py_yaml = none ∧
    cell_priority_spec w0 a7.unitcell a7.supercell
      a7.unitcell_filename a7.supercell_filename = some ⟨1⟩ ∧
    ((load w0 a7).map (fun p => p.ctorArgs.cell)
      = (load w0 a7).map (fun _ => (⟨1⟩ : Cell))) ∧
    ((resolveInputs w0 a7).map (fun r => r.cellHelperInvoked)
      = (resolveInputs w0 a7).map (fun _ => true)) :=
  ⟨rfl, rfl,
   (cell_priority_delegation w0 a7 ⟨1⟩ rfl rfl).1,
   (cell_priority_delegation w0 a7 ⟨1⟩ rfl rfl).2⟩

/-- C4: with a yaml argument, load parses that file and takes the unit
cell, the supercell matrix (when the file has one), the phonon
supercell matrix, and, when is_nac, the NAC parameters from the parsed
file, and the cell resolution helper is not invoked. -/
theorem yaml_branch_sources (w : World) (a : LoadArgs) (fname : String)
    (h1 : a.phono3py_yaml = some fname) (h2 : a.is_nac = true) :
    ((load w a).map (fun p => p.ctorArgs.cell)
      = Except.ok (w.readYaml fname).unitcell) ∧
    ((load w a).map (fun p => p.ctorArgs.phonon_supercell_matrix)
      = Except.ok (w.readYaml fname).phonon_supercell_matrix) ∧
    (∀ m, (w.readYaml fname).supercell_matrix = some m →
      (load w a).map (fun p => p.ctorArgs.supercell_matrix) = Except.ok m) ∧
    ((resolveInputs w a).map (fun r => r.nac0)
      = Except.ok (w.readYaml fname).nac_params) ∧
    ((resolveInputs w a).map (fun r => r.cellHelperInvoked)
      = Except.ok false) := by
  refine ⟨?_, ?_, ?_, ?_, ?_⟩
  · unfold load
    rw [resolveInputs_yaml w a fname h1]
    simp [Except.map, loadBody_ctorArgs, mkCtorArgs]
  · unfold load
    rw [resolveInputs_yaml w a fname h1]
    simp [Except.map, loadBody_ctorArgs, mkCtorArgs]
  · intro m hm
    unfold load
    rw [resolveInputs_yaml w a fname h1]
    simp [Except.map, loadBody_ctorArgs, mkCtorArgs, hm]
  · rw [resolveInputs_yaml w a fname h1]
    simp [Except.map, h2]
  · rw [resolveInputs_yaml w a fname h1]
    simp [Except.map]

/-- Witness for C4 at a concrete yaml environment. -/
theorem yaml_branch_sources_witness :
    a4.phono3py_yaml = some "p3.yaml" ∧
    a4.is_nac = true ∧
    ((load w4 a4).map (fun p => p.ctorArgs.cell) = Except.ok (Cell.mk 3)) ∧
    ((load w4 a4).map (fun p => p.ctorArgs.phonon_supercell_matrix)
      = Except.ok (some eye3)) ∧
    ((load w4 a4).map (fun p => p.ctorArgs.supercell_matrix) = Except.ok eye3) ∧
    ((resolveInputs w4 a4).map (fun r => r.nac0)
      = Except.ok (some (NacParams.mk 6))) ∧
    ((resolveInputs w4 a4).map (fun r => r.cellHelperInvoked)
      = Except.ok false) :=
  ⟨rfl, rfl,
   (yaml_branch_sources w4 a4 "p3.yaml" rfl rfl).1,
   (yaml_branch_sources w4 a4 "p3.yaml" rfl rfl).2.1,
   (yaml_branch_sources w4 a4 "p3.yaml" rfl rfl).2.2.1 eye3 rfl,
   (yaml_branch_sources w4 a4 "p3.yaml" rfl rfl).2.2.2.1,
   (yaml_branch_sources w4 a4 "p3.yaml" rfl rfl).2.2.2.2⟩

/-- C7: on every successful resolution, the object load returns is
exactly the one produced by the external constructor from the resolved
cell, matrices and units, possibly modified by the force-constant
setters and one set_phph_interaction call, and nothing else. -/
theorem load_is_ctor_and_setters (w : World) (a : LoadArgs) (r : Resolved)
    (hr : resolveInputs w a = Except.ok r) :
    load w a = Except.ok (
      let ph3py := phono3pyConstruct w (mkCtorArgs w a r)
      let nacF := get_nac_params w r.nac0 a.born_filename a.is_nac
        (w.physicalUnits a.calculator).nac_factor
      let ph3py2 := _set_force_constants w ph3py none a.fc3_filename
        a.fc2_filename a.forces_fc3_filename a.forces_fc2_filename
        a.fc_calculator
      match a.mesh with
      | some _ => set_phph_interaction ph3py2 nacF a.frequency_scale_factor
      | none => ph3py2) := by
  unfold load
  rw [hr]
  rfl

/-- Witness for C7 at a concrete input and its resolution outcome. -/
theorem load_is_ctor_and_setters_witness :
    resolveInputs w0 a7 = Except.ok r7 ∧
    load w0 a7 = Except.ok (
      let ph3py := phono3pyConstruct w0 (mkCtorArgs w0 a7 r7)
      let nacF := get_nac_params w0 r7.nac0 a7.born_filename a7.is_nac
        (w0.physicalUnits a7.calculator).nac_factor
      let ph3py2 := _set_force_constants w0 ph3py none a7.fc3_filename
        a7.fc2_filename a7.forces_fc3_filename a7.forces_fc2_filename
        a7.fc_calculator
      match a7.mesh with
      | some _ => set_phph_interaction ph3py2 nacF a7.frequency_scale_factor
      | none => ph3py2) :=
  ⟨rfl, load_is_ctor_and_setters w0 a7 r7 rfl⟩

/-- C9: with a yaml file that contains no supercell matrix, the
supercell matrix passed to the constructor is the identity, and the
primitive matrix passed is auto when the primitive_matrix argument is
auto and the parsed file primitive matrix otherwise. -/
theorem yaml_default_smat_and_pmat (w : World) (a : LoadArgs) (fname : String)
    (h1 : a.phono3py_yaml = some fname)
    (h2 : (w.readYaml fname).supercell_matrix = none) :
    ((load w a).map (fun p => p.ctorArgs.supercell_matrix) = Except.ok eye3) ∧
    (a.primitive_matrix = some .auto →
      (load w a).map (fun p => p.ctorArgs.primitive_matrix)
        = Except.ok ResolvedPMat.auto) ∧
    (a.primitive_matrix ≠ some .auto →
      (load w a).map (fun p => p.ctorArgs.primitive_matrix)
        = Except.ok (pmatOfYaml (w.readYaml fname).primitive_matrix)) := by
  refine ⟨?_, ?_, ?_⟩
  · unfold load
    rw [resolveInputs_yaml w a fname h1]
    simp [Except.map, loadBody_ctorArgs, mkCtorArgs, h2]
  · intro ha
    unfold load
    rw [resolveInputs_yaml w a fname h1]
    simp [Except.map, loadBody_ctorArgs, mkCtorArgs, ha]
  · intro ha
    unfold load
    rw [resolveInputs_yaml w a fname h1]
    simp only [Except.map, loadBody_ctorArgs, mkCtorArgs]

/-- Witness for C9 at a concrete yaml environment with a primitive
matrix in the file and no supercell matrix. -/
theorem yaml_default_smat_and_pmat_witness :
    a9.phono3py_yaml = some "p.yaml" ∧
    (w9.readYaml "p.yaml").supercell_matrix = none ∧
    ((load w9 a9).map (fun p => p.ctorArgs.supercell_matrix)
      = Except.ok eye3) ∧
    ((load w9 a9).map (fun p => p.ctorArgs.primitive_matrix)
      = Except.ok (ResolvedPMat.mat eye3)) :=
  ⟨rfl, rfl,
   (yaml_default_smat_and_pmat w9 a9 "p.yaml" rfl rfl).1,
   (yaml_default_smat_and_pmat w9 a9 "p.yaml" rfl rfl).2.2
     (fun h => Option.noConfusion h)⟩
